import Mathlib

/-!
Formal model of the MapMyRun-to-Strava migration pipeline
(repository `MapMyRun_to_Strava_Migration-TCX_Data_Format`).

The Python sources embedded here:
- `src/database_manager.py` : the `Workout` table row and the schema-version
  check that decides whether the store is rebuilt.
- `src/strava_uploader.py`  : duplicate detection (`_is_duplicate`), the
  rate-limit cooldown computation (`_handle_rate_limit`), activity-type
  mapping (`_map_activity_type`) and the upload flow (`upload_activity`).
- `src/tcx_validator.py`    : TCX validation with the raw-text duration
  fallback (`TcxValidator.validate`).
- `main.py`                 : submission-eligibility selection, the rebuild
  path after a schema bump, the dry-run path and batch-size gating.

External libraries (tcxreader, stravalib, SQLAlchemy) are modelled at their
observable boundary: parser outputs, remote responses and header values are
inputs to the embedded functions, exactly as the Python code consumes them.
-/

/-- `mmr_status` enum of the `workouts` table (`database_manager.py` line 29). -/
inductive MmrStatus
  | pending_download
  | download_failed
  | validation_successful
  | validation_failed
deriving Repr, DecidableEq

/-- `strava_status` enum of the `workouts` table (`database_manager.py` line 30). -/
inductive StravaStatus
  | pending_upload
  | upload_successful
  | upload_failed
  | skipped_already_exists
  | upload_failed_file_not_found
deriving Repr, DecidableEq

/-- One row of the `workouts` table (`database_manager.py` lines 18-31).
`workout_date` is an abstract day stamp (only used for the same-day duplicate
window, which this development does not need to refine further). -/
structure Workout where
  workout_id : Nat
  activity_name : Option String
  notes : Option String
  activity_type : String
  workout_date : Nat
  download_path : Option String
  mmr_status : MmrStatus
  strava_status : StravaStatus
  strava_activity_id : Option Nat
deriving Repr, DecidableEq

/-- One Strava activity as consumed by `_is_duplicate`
(`strava_uploader.py` lines 80-82): its id, `activity.distance.num` in meters
and `activity.elapsed_time.total_seconds()`. Floats are modelled as rationals. -/
structure RemoteActivity where
  id : Nat
  distance : ℚ
  elapsed_time : ℚ
deriving Repr, DecidableEq

/-- The comparison loop of `StravaUploader._is_duplicate`
(`strava_uploader.py` lines 80-92): walk the same-day remote activities in
order and return the id of the first one within tolerance
(`distance_diff < 161 and duration_diff < 60`), else `None`. -/
def is_duplicate (local_distance local_duration : ℚ) :
    List RemoteActivity → Option Nat
  | [] => none
  | a :: rest =>
    if |local_distance - a.distance| < 161 ∧ |local_duration - a.elapsed_time| < 60 then
      some a.id
    else
      is_duplicate local_distance local_duration rest

/-- The `type_mapping` dict of `StravaUploader._map_activity_type`
(`strava_uploader.py` lines 161-174), in insertion order (Python dicts
iterate in insertion order). -/
def type_mapping : List (String × String) :=
  [("run", "run"),
   ("treadmill run", "run"),
   ("walk", "walk"),
   ("hike", "hike"),
   ("bike", "ride"),
   ("biking", "ride"),
   ("cycle", "ride"),
   ("spin", "ride"),
   ("swim", "swim"),
   ("elliptical", "elliptical"),
   ("stairs", "stairstepper"),
   ("weight training", "weighttraining")]

/-- `needle` is a prefix of `hay` (character lists). -/
def startsWithList : List Char → List Char → Bool
  | _, [] => true
  | [], _ :: _ => false
  | c :: cs, d :: ds => if c = d then startsWithList cs ds else false

/-- `needle` occurs contiguously inside `hay` (character lists); Python's
`needle in hay` on strings. -/
def containsSubList (hay needle : List Char) : Bool :=
  if startsWithList hay needle then true
  else
    match hay with
    | [] => false
    | _ :: cs => containsSubList cs needle

/-- Python's `key in mmr_type` substring test on strings. -/
def strContains (hay needle : String) : Bool :=
  containsSubList hay.data needle.data

/-- Python's `str.lower()` (ASCII-faithful for the inputs involved). -/
def pyLower (s : String) : String := ⟨s.data.map Char.toLower⟩

/-- `StravaUploader._map_activity_type` (`strava_uploader.py` lines 153-180):
empty/falsy input maps to `"workout"`; otherwise the input is lowercased and
the first mapping key contained in it wins; unmapped types fall back to
`"workout"`. -/
def map_activity_type (mmr_type : String) : String :=
  if mmr_type = "" then
    "workout"
  else
    let lower := pyLower mmr_type
    match type_mapping.find? (fun p => strContains lower p.1) with
    | some p => p.2
    | none => "workout"

/-- The activity types Strava accepts, as produced by the mapping
(values of `type_mapping` plus the `"workout"` fallback). -/
def stravaSupportedTypes : List String :=
  ["run", "walk", "hike", "ride", "swim", "elliptical",
   "stairstepper", "weighttraining", "workout"]

/-- Output of the primary parse `TCXReader().read(file_path)` as consumed by
`TcxValidator.validate` (`tcx_validator.py` line 26): the parsed duration (a
float or `None`) and the number of trackpoints. -/
structure ParsedTcx where
  duration : Option ℚ
  trackpoints : Nat
deriving Repr, DecidableEq

/-- One artifact file as the validator observes it.
`parse = none` models `TCXReader().read` raising (malformed file, handled by
the `except` clauses at `tcx_validator.py` lines 88-93).
`rawScan` models the manual fallback read (`tcx_validator.py` lines 32-44):
`none` = opening/reading the file raised; `some none` = the
`<TotalTimeSeconds>` regex found no match; `some (some d)` = the regex
matched the (non-negative) value `d`. -/
structure Artifact where
  parse : Option ParsedTcx
  rawScan : Option (Option ℚ)
deriving Repr, DecidableEq

/-- The manual fallback of `TcxValidator.validate`
(`tcx_validator.py` lines 30-47): re-read the raw text, regex-search for
`<TotalTimeSeconds>`, succeed only on a match with value `> 0`; a read
error, a missing match or a non-positive match all end in `return False`. -/
def fallbackCheck (a : Artifact) : Bool :=
  match a.rawScan with
  | some (some d) => if d > 0 then true else false
  | some none => false
  | none => false

/-- `TcxValidator.validate` (`tcx_validator.py` lines 13-93): parse the file;
if the parse raises, the file is invalid; if the parsed duration is missing
or non-positive, fall back to the raw-text scan; otherwise the file is valid
(the trackpoint count is only logged, never tested). -/
def validate (a : Artifact) : Bool :=
  match a.parse with
  | none => false
  | some tcx =>
    match tcx.duration with
    | none => fallbackCheck a
    | some d => if d ≤ 0 then fallbackCheck a else true

/-- `SCHEMA_VERSION` (`database_manager.py` line 14). -/
def SCHEMA_VERSION : Int := 3

/-- What `DatabaseManager._check_schema_version` can observe on disk:
no database file at all, a database whose `schema_version` table is missing
or unreadable (the `sqlite3.OperationalError` path), or a stamped version. -/
inductive SchemaStamp
  | missingFile
  | unreadable
  | stamped (v : Int)
deriving Repr, DecidableEq

/-- `DatabaseManager._check_schema_version` (`database_manager.py` lines
57-90): `was_rebuilt` is set when the file is missing, when the stamp cannot
be read, or when `db_version < SCHEMA_VERSION`. -/
def check_schema_version : SchemaStamp → Bool
  | .missingFile => true
  | .unreadable => true
  | .stamped v => decide (v < SCHEMA_VERSION)

/-- One row extracted from the source CSV export
(`csv_parser.py` lines 35-41), used to regenerate the store on rebuild. -/
structure WorkoutData where
  workout_id : Nat
  activity_name : Option String
  notes : Option String
  activity_type : String
  workout_date : Nat
deriving Repr, DecidableEq

/-- `Workout(**workout_data)` (`main.py` line 54) with the column defaults of
`database_manager.py` lines 28-31: `mmr_status = 'pending_download'`,
`strava_status = 'pending_upload'`, no download path, no Strava id. -/
def freshWorkout (r : WorkoutData) : Workout :=
  { workout_id := r.workout_id
    activity_name := r.activity_name
    notes := r.notes
    activity_type := r.activity_type
    workout_date := r.workout_date
    download_path := none
    mmr_status := .pending_download
    strava_status := .pending_upload
    strava_activity_id := none }

/-- The artifact path probed during re-validation (`main.py` lines 69-70). -/
def tcxPath (id : Nat) : String :=
  "data/From_MapMyRun/TCX_downloads/" ++ toString id ++ ".tcx"

/-- The re-validation step of the rebuild path (`main.py` lines 67-77):
if the artifact file exists on disk and validates, the record becomes
`validation_successful` with its `download_path` set; otherwise it is left
as regenerated. `artifactOnDisk id = none` models `os.path.exists` false. -/
def revalidateOne (artifactOnDisk : Nat → Option Artifact) (w : Workout) : Workout :=
  match artifactOnDisk w.workout_id with
  | some a =>
    if validate a then
      { w with mmr_status := .validation_successful
               download_path := some (tcxPath w.workout_id) }
    else w
  | none => w

/-- The whole rebuild path of `main` (`main.py` lines 44-79): repopulate the
store from the CSV rows, then re-validate every record against the artifacts
already on disk. -/
def rebuildStore (rows : List WorkoutData) (artifactOnDisk : Nat → Option Artifact) :
    List Workout :=
  (rows.map freshWorkout).map (revalidateOne artifactOnDisk)

/-- The wall clock read by `_handle_rate_limit` (`datetime.now()`), at
one-second granularity. -/
structure Clock where
  hour : Nat
  minute : Nat
  second : Nat
deriving Repr, DecidableEq

/-- Seconds since local midnight. -/
def nowSec (c : Clock) : Int := c.hour * 3600 + c.minute * 60 + c.second

/-- The next quarter-hour reset instant computed by `_handle_rate_limit`
(`strava_uploader.py` lines 119-132), as seconds since the same midnight
(the `+= timedelta(days=1)` branch adds a day's worth of seconds). -/
def nextResetSec (c : Clock) : Int :=
  let next_reset_minute := ((c.minute / 15) + 1) * 15
  let hm : Nat × Nat :=
    if next_reset_minute ≥ 60 then ((c.hour + 1) % 24, 0) else (c.hour, next_reset_minute)
  let r : Int := hm.1 * 3600 + hm.2 * 60
  if r ≤ nowSec c then r + 86400 else r

/-- `default_cooldown` of `_handle_rate_limit` (`strava_uploader.py` line
135): seconds until the next reset plus a 30-second buffer. -/
def defaultCooldown (c : Clock) : Int := nextResetSec c - nowSec c + 30

/-- `StravaUploader._handle_rate_limit` (`strava_uploader.py` lines 115-151),
returning the cooldown it sleeps for. `retryAfter` models the headers:
`none` = no headers or no `Retry-After` key; `some none` = a `Retry-After`
value `int()` cannot parse; `some (some v)` = the parsed integer. The header
value is used only when `0 < v ≤ 900`. -/
def handle_rate_limit (c : Clock) (retryAfter : Option (Option Int)) : Int :=
  match retryAfter with
  | some (some v) => if 0 < v ∧ v ≤ 900 then v else defaultCooldown c
  | _ => defaultCooldown c

/-- One response of the remote service to the upload flow, in the order the
flow consumes them.  `throttle` stands for any rate-limit signal
(`RateLimitExceeded`, an HTTP 429 response, or rate-limit wording inside an
`ActivityUploadFailed` error), which `strava_uploader.py` always answers with
`_handle_rate_limit` followed by a retry of the same operation.
`activities acts` is a `get_activities` response; `uploadOk i` is an upload
that completes with new activity id `i` (lines 262-267); `uploadRejectDup`
is an `ActivityUploadFailed` whose text reads as a duplicate (lines
298-302); `uploadRejectOther` is any other upload failure (lines 308-310). -/
inductive RemoteEvent
  | throttle
  | activities (acts : List RemoteActivity)
  | uploadOk (id : Nat)
  | uploadRejectDup
  | uploadRejectOther
deriving Repr, DecidableEq

/-- Which remote call `upload_activity` is waiting on: the `get_activities`
duplicate pre-check, or the upload itself. -/
inductive UploadPhase
  | dupCheck
  | uploading
deriving Repr, DecidableEq

/-- Where a from-the-top retry of `upload_activity` resumes: when the local
TCX metrics parsed, `_is_duplicate` issues a fresh `get_activities` query; when
they did not parse, `_is_duplicate` returns `None` without any API call
(`strava_uploader.py` lines 67-69) and the flow goes straight to the upload. -/
def retryPhase (metrics : Option (ℚ × ℚ)) : UploadPhase :=
  match metrics with
  | none => .uploading
  | some _ => .dupCheck

/-- The remote-interaction loop of `StravaUploader.upload_activity`
(`strava_uploader.py` lines 199-318), driven by a script of remote
responses.  A throttle during the duplicate check retries the check
(lines 94-97 and 104-110); a throttle during the upload retries the whole
`upload_activity`, duplicate check included (lines 279-283, 290-296 and
303-307).  Terminal outcomes return the updated record and whether the
remote accepted an upload; `none` means the script was exhausted or offered
a response the flow would not be waiting on at that point. -/
def uploadLoop (metrics : Option (ℚ × ℚ)) (w : Workout) :
    List RemoteEvent → UploadPhase → Option (Workout × Bool)
  | [], _ => none
  | e :: rest, ph =>
    match ph, e with
    | .dupCheck, .throttle => uploadLoop metrics w rest .dupCheck
    | .dupCheck, .activities acts =>
      match metrics with
      | some (d, t) =>
        match is_duplicate d t acts with
        | some i =>
          some ({ w with strava_status := .skipped_already_exists
                         strava_activity_id := some i }, false)
        | none => uploadLoop metrics w rest .uploading
      | none => none
    | .dupCheck, _ => none
    | .uploading, .throttle => uploadLoop metrics w rest (retryPhase metrics)
    | .uploading, .uploadOk i =>
      some ({ w with strava_status := .upload_successful
                     strava_activity_id := some i }, true)
    | .uploading, .uploadRejectDup =>
      some ({ w with strava_status := .skipped_already_exists }, false)
    | .uploading, .uploadRejectOther =>
      some ({ w with strava_status := .upload_failed }, false)
    | .uploading, .activities _ => none

/-- `StravaUploader.upload_activity` (`strava_uploader.py` lines 182-318).
`fileExists` models `workout.download_path and os.path.exists(...)` (line
189); note that this check runs BEFORE the `dry_run` check (line 195), so a
missing file mutates the record even in dry-run.  `metrics` is the local
distance/duration pair `_is_duplicate` parses from the TCX file, `none` when
parsing fails.  The returned `Bool` records whether the remote accepted an
upload for this record. -/
def upload_activity (dry_run fileExists : Bool) (metrics : Option (ℚ × ℚ))
    (w : Workout) (script : List RemoteEvent) : Option (Workout × Bool) :=
  if !fileExists then
    some ({ w with strava_status := .upload_failed_file_not_found }, false)
  else if dry_run then
    some (w, false)
  else
    uploadLoop metrics w script (retryPhase metrics)

/-- The `pending_to_upload` query of `main` (`main.py` lines 188-191):
records with `mmr_status = 'validation_successful'` and
`strava_status = 'pending_upload'`. -/
def pending_to_upload (ws : List Workout) : List Workout :=
  ws.filter fun w =>
    decide (w.mmr_status = .validation_successful) &&
    decide (w.strava_status = .pending_upload)

/-- The `failed_to_retry` query of `main` (`main.py` lines 193-196):
records with `mmr_status = 'validation_successful'` and
`strava_status = 'upload_failed'`. -/
def failed_to_retry (ws : List Workout) : List Workout :=
  ws.filter fun w =>
    decide (w.mmr_status = .validation_successful) &&
    decide (w.strava_status = .upload_failed)

/-- One submission pass over the whole store: exactly the records the two
selection queries return are handed to the uploader (`step`), every other
record is untouched (`main.py` lines 188-202 with `bulk_upload`). -/
def runSubmissionPass (step : Workout → Workout) (ws : List Workout) :
    List Workout :=
  ws.map fun w =>
    if (decide (w.mmr_status = .validation_successful) &&
        (decide (w.strava_status = .pending_upload) ||
         decide (w.strava_status = .upload_failed))) then
      step w
    else w

/-- The accepted batch sizes (`main.py` lines 229 and 254). -/
def batchSizeOptions : List Int := [5, 10, 50, 100, 300]

/-- The non-interactive `--batch-size` gate (`main.py` lines 227-238),
including the Python truthiness guard `if args.batch_size:` at line 228:
the gate only runs for a provided, non-zero argument (`argparse` defaults
the flag to `None`, and the int 0 is falsy).  A truthy unlisted size logs
an error and returns before any upload; a truthy accepted size hands
control to the upload path (`proceed`, abstract here), which yields a new
store and the number of uploads attempted; an absent or zero argument
bypasses the gate entirely and falls through to the interactive menu
(`interactiveMenu`, the abstract outcome of that menu).  The pair returned
is the final store and the upload count. -/
def nonInteractiveRun (proceed : Int → List Workout × Nat)
    (interactiveMenu : List Workout × Nat) (batch_size : Option Int)
    (store : List Workout) : List Workout × Nat :=
  match batch_size with
  | some bs =>
    if bs ≠ 0 then
      if bs ∈ batchSizeOptions then proceed bs else (store, 0)
    else interactiveMenu
  | none => interactiveMenu

/-- The interactive batch-size prompt (`main.py` lines 254-269): empty input
defaults to 50; unparseable input aborts, and a parsed size outside the
accepted list aborts, both before any upload.  `input` is `none` for empty
input, `some none` for input `int()` rejects, `some (some n)` for a parsed
integer. -/
def interactiveRun (proceed : Int → List Workout × Nat)
    (input : Option (Option Int)) (store : List Workout) : List Workout × Nat :=
  match input with
  | some none => (store, 0)
  | some (some n) => if n ∈ batchSizeOptions then proceed n else (store, 0)
  | none => if (50 : Int) ∈ batchSizeOptions then proceed 50 else (store, 0)

/-- A sample validated, never-yet-submitted record used to instantiate
theorems at concrete inputs. -/
def w0ex : Workout :=
  { workout_id := 1
    activity_name := none
    notes := none
    activity_type := "Run"
    workout_date := 0
    download_path := some "data/From_MapMyRun/TCX_downloads/1.tcx"
    mmr_status := .validation_successful
    strava_status := .pending_upload
    strava_activity_id := none }

/-- C2: `_is_duplicate` returns the id of the first same-day candidate with
`|localDistance - remoteDistance| < 161` and
`|localDuration - remoteDuration| < 60`, and `None` when no candidate
satisfies both; in particular local `(16000, 3600)` matches remote
`(16050, 3630)` and local `(16500, 3600)` does not match remote
`(16000, 3600)`. -/
theorem is_duplicate_first_match (d t : ℚ) (acts : List RemoteActivity) :
    (is_duplicate d t acts =
      (acts.find? fun a =>
        decide (|d - a.distance| < 161 ∧ |t - a.elapsed_time| < 60)).map
        (fun a => a.id))
    ∧ is_duplicate 16000 3600 [⟨77, 16050, 3630⟩] = some 77
    ∧ is_duplicate 16500 3600 [⟨77, 16000, 3600⟩] = none := by
  refine ⟨?_, by simp only [is_duplicate]; norm_num, by simp only [is_duplicate]; norm_num⟩
  induction acts with
  | nil => rfl
  | cons a rest ih =>
    by_cases h : |d - a.distance| < 161 ∧ |t - a.elapsed_time| < 60
    · simp [is_duplicate, List.find?, h]
    · simp only [is_duplicate, if_neg h, ih, List.find?]
      rw [decide_eq_false h]

/-- C10: `_map_activity_type` is total, always lands in the fixed set of
Strava-supported types, and returns `"workout"` for empty input and for any
input containing no mapping key. -/
theorem map_activity_type_total (s : String) :
    map_activity_type s ∈ stravaSupportedTypes
    ∧ (s = "" → map_activity_type s = "workout")
    ∧ ((∀ p ∈ type_mapping, strContains (pyLower s) p.1 = false) →
        map_activity_type s = "workout") := by
  have hvals : ∀ x ∈ type_mapping.map Prod.snd, x ∈ stravaSupportedTypes := by decide
  refine ⟨?_, ?_, ?_⟩
  · unfold map_activity_type
    by_cases he : s = ""
    · simp [he, stravaSupportedTypes]
    · simp only [he, if_false]
      cases hfind : type_mapping.find? (fun p => strContains (pyLower s) p.1) with
      | none => simp [stravaSupportedTypes]
      | some p =>
        exact hvals _ (List.mem_map_of_mem _ (List.mem_of_find?_eq_some hfind))
  · intro hs
    subst hs
    rfl
  · intro hnone
    unfold map_activity_type
    by_cases he : s = ""
    · simp [he]
    · have hfind : type_mapping.find? (fun p => strContains (pyLower s) p.1) = none :=
        List.find?_eq_none.mpr (fun p hp => by simp [hnone p hp])
      simp [he, hfind]

/-- Witness for `map_activity_type_total` at the empty string and at an
input containing no mapping key. -/
theorem map_activity_type_total_witness :
    map_activity_type "" = "workout" ∧ map_activity_type "yoga" = "workout" :=
  ⟨(map_activity_type_total "").2.1 rfl,
   (map_activity_type_total "yoga").2.2 (by decide)⟩

/-- For a well-formed wall clock, the default cooldown computed by
`_handle_rate_limit` is exactly the seconds remaining until the next
quarter-hour boundary plus the 30-second buffer. -/
theorem defaultCooldown_eq (c : Clock) (hh : c.hour < 24) (hm : c.minute < 60)
    (hs : c.second < 60) :
    defaultCooldown c = (15 - (c.minute % 15 : Int)) * 60 - c.second + 30 := by
  obtain ⟨h, m, s⟩ := c
  simp only [defaultCooldown, nextResetSec, nowSec] at *
  split_ifs <;> push_cast <;> omega

/-- C6 (amended): `_handle_rate_limit` enforces a cooldown equal to the
response's `Retry-After` value when that value is an integer with
`0 < value ≤ 900`; in every other case (value 0 or negative, value above
900, unparseable value, no header) the cooldown is the seconds remaining
until the next quarter-hour clock boundary (minute 0, 15, 30 or 45) plus a
30-second safety buffer. -/
theorem handle_rate_limit_spec (c : Clock) (hh : c.hour < 24) (hm : c.minute < 60)
    (hs : c.second < 60) :
    (∀ v : Int, 0 < v → v ≤ 900 → handle_rate_limit c (some (some v)) = v)
    ∧ (∀ v : Int, v ≤ 0 ∨ 900 < v →
        handle_rate_limit c (some (some v)) =
          (15 - (c.minute % 15 : Int)) * 60 - c.second + 30)
    ∧ handle_rate_limit c none =
        (15 - (c.minute % 15 : Int)) * 60 - c.second + 30
    ∧ handle_rate_limit c (some none) =
        (15 - (c.minute % 15 : Int)) * 60 - c.second + 30 := by
  have hd := defaultCooldown_eq c hh hm hs
  refine ⟨?_, ?_, ?_, ?_⟩
  · intro v h1 h2
    simp [handle_rate_limit, h1, h2]
  · intro v hv
    have : ¬ (0 < v ∧ v ≤ 900) := by omega
    simp [handle_rate_limit, this, hd]
  · simp [handle_rate_limit, hd]
  · simp [handle_rate_limit, hd]

/-- Witness for `handle_rate_limit_spec` at 10:20:30: an in-range
`Retry-After` of 100 is honored, and absent headers give the 570 seconds to
the 10:30:00 boundary plus the 30-second buffer. -/
theorem handle_rate_limit_spec_witness :
    handle_rate_limit ⟨10, 20, 30⟩ (some (some 100)) = 100
    ∧ handle_rate_limit ⟨10, 20, 30⟩ none = 600 := by
  have h := handle_rate_limit_spec ⟨10, 20, 30⟩ (by decide) (by decide) (by decide)
  refine ⟨h.1 100 (by decide) (by decide), ?_⟩
  rw [h.2.2.1]
  decide

/-- C6 counterexample: a `Retry-After` of 0 lies in the claimed sane bound
0-900, but the code's guard is `0 < retry_after <= 900`, so the value is
rejected and the quarter-hour default (930 seconds at 00:00:00) is used
instead of a 0-second cooldown. -/
theorem handle_rate_limit_zero_rejected :
    handle_rate_limit ⟨0, 0, 0⟩ (some (some 0)) = 930 := rfl

/-- C7 counterexample: a store stamped with version 4 differs from the
code's `SCHEMA_VERSION = 3`, yet `_check_schema_version` only rebuilds on
`db_version < SCHEMA_VERSION`, so this mismatch triggers no rebuild. -/
theorem schema_newer_stamp_no_rebuild :
    check_schema_version (.stamped 4) = false ∧ SCHEMA_VERSION = 3 :=
  ⟨rfl, rfl⟩

/-- C7 (amended): a stamped version strictly below the code's
`SCHEMA_VERSION` — or a missing or unreadable stamp — triggers the rebuild
(a stamp at or above the code's version does not), and the rebuild
regenerates every record from the source CSV rows with fresh default
statuses and re-validates every artifact already on disk, restoring records
whose artifacts still validate to `validation_successful` with their
artifact path set. -/
theorem schema_rebuild_spec (rows : List WorkoutData)
    (arts : Nat → Option Artifact) (v : Int) :
    check_schema_version .missingFile = true
    ∧ check_schema_version .unreadable = true
    ∧ (v < SCHEMA_VERSION → check_schema_version (.stamped v) = true)
    ∧ (SCHEMA_VERSION ≤ v → check_schema_version (.stamped v) = false)
    ∧ rebuildStore rows arts = rows.map (fun r => revalidateOne arts (freshWorkout r))
    ∧ (∀ r : WorkoutData, (freshWorkout r).mmr_status = .pending_download
        ∧ (freshWorkout r).strava_status = .pending_upload
        ∧ (freshWorkout r).strava_activity_id = none)
    ∧ (∀ r : WorkoutData, ∀ a, arts r.workout_id = some a → validate a = true →
        revalidateOne arts (freshWorkout r) =
          { freshWorkout r with mmr_status := .validation_successful
                                download_path := some (tcxPath r.workout_id) })
    ∧ (∀ r : WorkoutData, arts r.workout_id = none →
        revalidateOne arts (freshWorkout r) = freshWorkout r) := by
  refine ⟨rfl, rfl, ?_, ?_, ?_, ?_, ?_, ?_⟩
  · intro hv
    simp [check_schema_version, hv]
  · intro hv
    simp [check_schema_version]
    omega
  · simp [rebuildStore]
  · intro r
    exact ⟨rfl, rfl, rfl⟩
  · intro r a ha hval
    simp [revalidateOne, freshWorkout, ha, hval]
  · intro r ha
    simp [revalidateOne, freshWorkout, ha]

/-- Witness for `schema_rebuild_spec`: a version-2 stamp triggers the
rebuild, and a record whose on-disk artifact still validates (positive
parsed duration) is restored to `validation_successful` with its path set. -/
theorem schema_rebuild_spec_witness :
    check_schema_version (.stamped 2) = true
    ∧ revalidateOne (fun _ => some ⟨some ⟨some 100, 0⟩, some none⟩)
        (freshWorkout ⟨1001, none, none, "Run", 0⟩) =
      { freshWorkout ⟨1001, none, none, "Run", 0⟩ with
          mmr_status := .validation_successful
          download_path := some (tcxPath 1001) } := by
  have h := schema_rebuild_spec [] (fun _ => some ⟨some ⟨some 100, 0⟩, some none⟩) 2
  exact ⟨h.2.2.1 (by decide),
         h.2.2.2.2.2.2.1 ⟨1001, none, none, "Run", 0⟩ _ rfl (by decide)⟩

/-- C5 counterexample: an artifact whose primary parse succeeds with one
trackpoint but no duration, and whose raw content has no positive
`TotalTimeSeconds`, fails validation even though it has at least one
trackpoint — `TcxValidator.validate` never tests the trackpoint count. -/
theorem validate_trackpoint_only_fails :
    validate ⟨some ⟨none, 1⟩, some none⟩ = false
    ∧ (⟨none, 1⟩ : ParsedTcx).trackpoints ≥ 1 := by
  constructor
  · rfl
  · decide

/-- C5 (amended): `validate` returns true iff the primary parse succeeds and
yields a positive duration, or the primary parse succeeds without a positive
duration and the secondary raw-text scan finds a positive duration field;
trackpoints play no role in the decision. In particular an artifact with no
primary-parse duration but a positive `TotalTimeSeconds` in its raw content
validates successfully. -/
theorem validate_spec (a : Artifact) :
    (validate a = true ↔
      ((∃ tcx, a.parse = some tcx ∧ ∃ d, tcx.duration = some d ∧ 0 < d) ∨
       ((∃ tcx, a.parse = some tcx ∧ ∀ d, tcx.duration = some d → d ≤ 0) ∧
        (∃ d, a.rawScan = some (some d) ∧ 0 < d))))
    ∧ (∀ dur n m raw,
        validate ⟨some ⟨dur, n⟩, raw⟩ = validate ⟨some ⟨dur, m⟩, raw⟩)
    ∧ (∀ tcx, a.parse = some tcx → tcx.duration = none →
        (∃ d, a.rawScan = some (some d) ∧ 0 < d) → validate a = true) := by
  obtain ⟨p, raw⟩ := a
  refine ⟨?_, ?_, ?_⟩
  · cases p with
    | none => simp [validate]
    | some tcx =>
      obtain ⟨dur, tp⟩ := tcx
      cases dur with
      | none =>
        cases raw with
        | none => simp [validate, fallbackCheck]
        | some r =>
          cases r with
          | none => simp [validate, fallbackCheck]
          | some d =>
            by_cases hd : 0 < d
            · simp [validate, fallbackCheck, hd]
            · simp [validate, fallbackCheck, hd, not_lt.mp hd]
      | some d0 =>
        by_cases h0 : d0 ≤ 0
        · have h0x : ¬ (0 < d0) := not_lt.mpr h0
          cases raw with
          | none => simp [validate, fallbackCheck, h0, h0x]
          | some r =>
            cases r with
            | none => simp [validate, fallbackCheck, h0, h0x]
            | some d =>
              by_cases hd : 0 < d
              · simp [validate, fallbackCheck, h0, h0x, hd]
              · simp [validate, fallbackCheck, h0, h0x, hd, not_lt.mp hd]
        · have h0x : 0 < d0 := not_le.mp h0
          simp [validate, fallbackCheck, h0, h0x]
  · intro dur n m raw
    cases dur <;> rfl
  · rintro tcx hp hdur ⟨d, hraw, hd⟩
    subst hp
    obtain ⟨dur, tp⟩ := tcx
    simp at hdur
    subst hdur
    subst hraw
    simp [validate, fallbackCheck, hd]

/-- Witness for `validate_spec`: an artifact with no primary-parse duration
but a positive raw-text duration validates. -/
theorem validate_spec_witness :
    validate ⟨some ⟨none, 0⟩, some (some 5)⟩ = true :=
  (validate_spec ⟨some ⟨none, 0⟩, some (some 5)⟩).2.2 ⟨none, 0⟩ rfl rfl
    ⟨5, rfl, by decide⟩

/-- C9 counterexample: a requested `--batch-size 0` lies outside the
accepted set `{5, 10, 50, 100, 300}`, yet `if args.batch_size:`
(`main.py` line 228) is false at 0, so the line-229 gate never runs: no
error is emitted and the run falls through to the interactive menu — here
one whose outcome changes the store and performs uploads — instead of
returning with the store unchanged. -/
theorem batch_size_zero_bypasses_gate :
    nonInteractiveRun (fun _ => ([], 0)) ([w0ex], 7) (some 0) [] = ([w0ex], 7)
    ∧ decide ((0 : Int) ∈ batchSizeOptions) = false :=
  ⟨rfl, rfl⟩

/-- C9 (amended): a requested batch size outside `{5, 10, 50, 100, 300}` is
rejected with an error and no upload and no record-state change, for every
non-zero `--batch-size` argument and for every parsed interactive input
(unparseable interactive input is likewise rejected); the sole exception is
`--batch-size 0`, which is falsy in Python, bypasses the non-interactive
gate without an error and falls through to the interactive menu (as does an
absent argument). -/
theorem batch_size_rejected (proceed : Int → List Workout × Nat)
    (menu : List Workout × Nat) (batch_size : Int) (store : List Workout)
    (h : batch_size ∉ batchSizeOptions) :
    (batch_size ≠ 0 →
      nonInteractiveRun proceed menu (some batch_size) store = (store, 0))
    ∧ nonInteractiveRun proceed menu (some 0) store = menu
    ∧ nonInteractiveRun proceed menu none store = menu
    ∧ interactiveRun proceed (some (some batch_size)) store = (store, 0)
    ∧ interactiveRun proceed (some none) store = (store, 0) := by
  refine ⟨?_, rfl, rfl, ?_, rfl⟩
  · intro hz
    simp [nonInteractiveRun, hz, h]
  · simp [interactiveRun, h]

/-- Witness for `batch_size_rejected` at batch size 7. -/
theorem batch_size_rejected_witness :
    nonInteractiveRun (fun _ => ([], 5)) ([], 9) (some 7) [] = ([], 0)
    ∧ interactiveRun (fun _ => ([], 5)) (some (some 7)) [] = ([], 0) :=
  ⟨(batch_size_rejected (fun _ => ([], 5)) ([], 9) 7 [] (by decide)).1 (by decide),
   (batch_size_rejected (fun _ => ([], 5)) ([], 9) 7 [] (by decide)).2.2.2.1⟩

/-- C1: the submission-eligibility selection (`pending_to_upload` plus the
shuffled `failed_to_retry`) returns exactly the records with
`mmr_status = 'validation_successful'` and `strava_status` in
`{'pending_upload', 'upload_failed'}`; consequently a record whose
`strava_status` is `'upload_successful'` or `'skipped_already_exists'` is
never selected, and a second submission pass leaves it (status, Strava id
and all other fields) unchanged. -/
theorem submission_selection_idempotent (step : Workout → Workout)
    (ws shuffled : List Workout) (w : Workout)
    (hperm : shuffled.Perm (failed_to_retry ws)) :
    (w ∈ pending_to_upload ws ++ shuffled ↔
      (w ∈ ws ∧ w.mmr_status = .validation_successful ∧
        (w.strava_status = .pending_upload ∨ w.strava_status = .upload_failed)))
    ∧ (w.strava_status = .upload_successful ∨ w.strava_status = .skipped_already_exists →
        w ∉ pending_to_upload ws ++ shuffled)
    ∧ (∀ (i : Nat) (v : Workout), ws[i]? = some v →
        (v.strava_status = .upload_successful ∨ v.strava_status = .skipped_already_exists) →
        (runSubmissionPass step ws)[i]? = some v) := by
  have hmem : w ∈ pending_to_upload ws ++ shuffled ↔
      (w ∈ ws ∧ w.mmr_status = .validation_successful ∧
        (w.strava_status = .pending_upload ∨ w.strava_status = .upload_failed)) := by
    rw [List.mem_append, hperm.mem_iff]
    simp only [pending_to_upload, failed_to_retry, List.mem_filter,
      Bool.and_eq_true, decide_eq_true_eq]
    tauto
  refine ⟨hmem, ?_, ?_⟩
  · intro hdone hsel
    rcases hmem.mp hsel with ⟨-, -, h | h⟩ <;> rcases hdone with hd | hd <;>
      rw [hd] at h <;> exact StravaStatus.noConfusion h
  · intro i v hv hdone
    rcases hdone with hd | hd <;> simp [runSubmissionPass, List.getElem?_map, hv, hd]

/-- Witness for `submission_selection_idempotent`: a store holding one
already-uploaded record selects nothing and a second pass leaves the record
unchanged. -/
theorem submission_selection_idempotent_witness :
    ({ w0ex with strava_status := .upload_successful, strava_activity_id := some 5 } ∉
      pending_to_upload [{ w0ex with strava_status := .upload_successful, strava_activity_id := some 5 }] ++ ([] : List Workout))
    ∧ (runSubmissionPass (fun w => { w with strava_status := .upload_failed })
        [{ w0ex with strava_status := .upload_successful, strava_activity_id := some 5 }])[0]? =
      some { w0ex with strava_status := .upload_successful, strava_activity_id := some 5 } := by
  have hp : ([] : List Workout).Perm
      (failed_to_retry [{ w0ex with strava_status := .upload_successful, strava_activity_id := some 5 }]) := by
    rw [show failed_to_retry [{ w0ex with strava_status := .upload_successful, strava_activity_id := some 5 }] =
      ([] : List Workout) from rfl]
  have h := submission_selection_idempotent (fun w => { w with strava_status := .upload_failed })
    [{ w0ex with strava_status := .upload_successful, strava_activity_id := some 5 }] []
    { w0ex with strava_status := .upload_successful, strava_activity_id := some 5 } hp
  exact ⟨h.2.1 (Or.inl rfl), h.2.2 0 _ rfl (Or.inl rfl)⟩

/-- C4 counterexample: a fresh record pushed through an upload whose
rejection text classifies as a duplicate (`strava_uploader.py` lines
298-302) ends with `strava_status = 'skipped_already_exists'` but
`strava_activity_id` still `None` — that code path never assigns the
remote id. -/
theorem upload_duplicate_text_no_remote_id :
    upload_activity false true (some (1000, 600)) w0ex
        [.activities [], .uploadRejectDup] =
      some ({ w0ex with strava_status := .skipped_already_exists }, false)
    ∧ ({ w0ex with strava_status := .skipped_already_exists }).strava_status =
        .skipped_already_exists
    ∧ ({ w0ex with strava_status := .skipped_already_exists }).strava_activity_id = none :=
  ⟨rfl, rfl, rfl⟩

/-- C4 (amended): every terminal transition of the upload flow into
`'upload_successful'` sets `strava_activity_id` to a fresh non-null id, and
every transition into `'skipped_already_exists'` either sets it to the
detected duplicate's id (the proactive pre-check path) or leaves it at its
previous value (the error-text duplicate path, which for a fresh record
means it stays `None`). -/
theorem upload_remote_id_invariant (metrics : Option (ℚ × ℚ)) (w : Workout)
    (script : List RemoteEvent) (ph : UploadPhase) (w' : Workout) (b : Bool)
    (h : uploadLoop metrics w script ph = some (w', b)) :
    (w'.strava_status = .upload_successful → w'.strava_activity_id.isSome = true)
    ∧ (w'.strava_status = .skipped_already_exists →
        w'.strava_activity_id.isSome = true ∨
          w'.strava_activity_id = w.strava_activity_id) := by
  induction script generalizing ph with
  | nil => simp [uploadLoop] at h
  | cons e rest ih =>
    cases ph with
    | dupCheck =>
      cases e with
      | throttle => exact ih _ h
      | activities acts =>
        cases metrics with
        | none => simp [uploadLoop] at h
        | some dt =>
          obtain ⟨d, t⟩ := dt
          rcases hdup : is_duplicate d t acts with _ | i
          · rw [show uploadLoop (some (d, t)) w (.activities acts :: rest) .dupCheck =
                  uploadLoop (some (d, t)) w rest .uploading by simp [uploadLoop, hdup]] at h
            exact ih _ h
          · rw [show uploadLoop (some (d, t)) w (.activities acts :: rest) .dupCheck =
                  some ({ w with strava_status := .skipped_already_exists, strava_activity_id := some i }, false) by simp [uploadLoop, hdup],
                Option.some_inj] at h
            obtain ⟨h1, h2⟩ := Prod.ext_iff.mp h
            subst h1
            exact ⟨(fun hx => nomatch hx), fun _ => Or.inl rfl⟩
      | uploadOk i => simp [uploadLoop] at h
      | uploadRejectDup => simp [uploadLoop] at h
      | uploadRejectOther => simp [uploadLoop] at h
    | uploading =>
      cases e with
      | throttle => exact ih _ h
      | activities acts => simp [uploadLoop] at h
      | uploadOk i =>
        simp only [uploadLoop, Option.some_inj] at h
        obtain ⟨h1, h2⟩ := Prod.ext_iff.mp h
        subst h1
        exact ⟨fun _ => rfl, fun hx => nomatch hx⟩
      | uploadRejectDup =>
        simp only [uploadLoop, Option.some_inj] at h
        obtain ⟨h1, h2⟩ := Prod.ext_iff.mp h
        subst h1
        exact ⟨(fun hx => nomatch hx), fun _ => Or.inr rfl⟩
      | uploadRejectOther =>
        simp only [uploadLoop, Option.some_inj] at h
        obtain ⟨h1, h2⟩ := Prod.ext_iff.mp h
        subst h1
        exact ⟨(fun hx => nomatch hx), fun hx => nomatch hx⟩

/-- Witness for `upload_remote_id_invariant`: a clean upload run ends
`'upload_successful'` with the new remote id set. -/
theorem upload_remote_id_invariant_witness :
    (({ w0ex with strava_status := .upload_successful, strava_activity_id := some 9 } : Workout).strava_status = .upload_successful →
      ({ w0ex with strava_status := .upload_successful, strava_activity_id := some 9 } : Workout).strava_activity_id.isSome = true)
    ∧ (({ w0ex with strava_status := .upload_successful, strava_activity_id := some 9 } : Workout).strava_status = .skipped_already_exists →
        ({ w0ex with strava_status := .upload_successful, strava_activity_id := some 9 } : Workout).strava_activity_id.isSome = true ∨
          ({ w0ex with strava_status := .upload_successful, strava_activity_id := some 9 } : Workout).strava_activity_id = w0ex.strava_activity_id) :=
  upload_remote_id_invariant (some (1000, 600)) w0ex
    [.activities [], .uploadOk 9] .dupCheck _ _ rfl

/-- A single leading throttle, answered at the phase a from-the-top retry
resumes in, is transparent: the flow retries the same operation. -/
theorem uploadLoop_throttle_head (metrics : Option (ℚ × ℚ)) (w : Workout)
    (script : List RemoteEvent) :
    uploadLoop metrics w (.throttle :: script) (retryPhase metrics) =
      uploadLoop metrics w script (retryPhase metrics) := by
  cases metrics <;> simp [uploadLoop, retryPhase]

/-- Any number of leading throttles is transparent to the upload flow. -/
theorem uploadLoop_throttle_replicate (metrics : Option (ℚ × ℚ)) (w : Workout)
    (n : Nat) (script : List RemoteEvent) :
    uploadLoop metrics w (List.replicate n .throttle ++ script) (retryPhase metrics) =
      uploadLoop metrics w script (retryPhase metrics) := by
  induction n with
  | zero => rfl
  | succ k ih =>
    rw [List.replicate_succ, List.cons_append, uploadLoop_throttle_head, ih]

/-- Specialisation of `uploadLoop_throttle_replicate` to a parsed-metrics
run (retry phase `dupCheck`). -/
theorem uploadLoop_throttle_replicate_dup (d t : ℚ) (w : Workout)
    (n : Nat) (script : List RemoteEvent) :
    uploadLoop (some (d, t)) w (List.replicate n .throttle ++ script) .dupCheck =
      uploadLoop (some (d, t)) w script .dupCheck :=
  uploadLoop_throttle_replicate (some (d, t)) w n script

/-- A duplicate pre-check that comes back clean advances the flow to the
upload call. -/
theorem uploadLoop_dup_none (d t : ℚ) (w : Workout) (acts : List RemoteActivity)
    (script : List RemoteEvent) (h : is_duplicate d t acts = none) :
    uploadLoop (some (d, t)) w (.activities acts :: script) .dupCheck =
      uploadLoop (some (d, t)) w script .uploading := by
  simp [uploadLoop, h]

/-- A throttle while waiting on the upload call sends the flow back to the
duplicate pre-check (a full `upload_activity` retry). -/
theorem uploadLoop_throttle_uploading (d t : ℚ) (w : Workout)
    (script : List RemoteEvent) :
    uploadLoop (some (d, t)) w (.throttle :: script) .uploading =
      uploadLoop (some (d, t)) w script .dupCheck := by
  simp [uploadLoop, retryPhase]

/-- C3: rate-limit signals are answered by retrying the same operation after
the cooldown, never by skipping it: (1) any number of throttles ahead of the
remaining script leaves the run's outcome unchanged; (2) a run that is
throttled during the upload call re-runs the duplicate check and, when both
checks come back clean and the retried upload succeeds, ends in exactly the
terminal state of the throttle-free run; (3) that throttle-free run ends
`'upload_successful'` with the new remote id; (4) the flow never consumes an
upload response while the duplicate check is pending, so a rate-limit error
during the check can not lead to a blind upload. -/
theorem throttle_retry_transparent (dry fe : Bool) (metrics : Option (ℚ × ℚ))
    (w : Workout) (d t : ℚ) (acts acts2 : List RemoteActivity) (i : Nat)
    (n m : Nat) (script rest : List RemoteEvent)
    (h1 : is_duplicate d t acts = none) (h2 : is_duplicate d t acts2 = none) :
    (upload_activity dry fe metrics w (List.replicate n .throttle ++ script) =
      upload_activity dry fe metrics w script)
    ∧ (upload_activity false true (some (d, t)) w
        (.activities acts :: .throttle ::
          (List.replicate m .throttle ++ [.activities acts2, .uploadOk i])) =
       upload_activity false true (some (d, t)) w [.activities acts2, .uploadOk i])
    ∧ (upload_activity false true (some (d, t)) w [.activities acts2, .uploadOk i] =
       some ({ w with strava_status := .upload_successful, strava_activity_id := some i }, true))
    ∧ uploadLoop (some (d, t)) w (.uploadOk i :: rest) .dupCheck = none := by
  refine ⟨?_, ?_, ?_, rfl⟩
  · cases fe with
    | false => rfl
    | true =>
      cases dry with
      | true => rfl
      | false => exact uploadLoop_throttle_replicate metrics w n script
  · show uploadLoop (some (d, t)) w
        (.activities acts :: .throttle ::
          (List.replicate m .throttle ++ [.activities acts2, .uploadOk i])) .dupCheck =
      uploadLoop (some (d, t)) w [.activities acts2, .uploadOk i] .dupCheck
    rw [uploadLoop_dup_none _ _ _ _ _ h1, uploadLoop_throttle_uploading,
      uploadLoop_throttle_replicate_dup]
  · show uploadLoop (some (d, t)) w [.activities acts2, .uploadOk i] .dupCheck = _
    rw [uploadLoop_dup_none _ _ _ _ _ h2]
    rfl

/-- Witness for `throttle_retry_transparent`: two empty same-day listings
and an upload accepted after throttling end in `'upload_successful'` with
remote id 3, exactly as without throttling. -/
theorem throttle_retry_transparent_witness :
    upload_activity false true (some (0, 0)) w0ex
        (.activities [] :: .throttle ::
          (List.replicate 1 .throttle ++ [.activities [], .uploadOk 3])) =
      upload_activity false true (some (0, 0)) w0ex [.activities [], .uploadOk 3]
    ∧ upload_activity false true (some (0, 0)) w0ex [.activities [], .uploadOk 3] =
      some ({ w0ex with strava_status := .upload_successful, strava_activity_id := some 3 }, true) :=
  ⟨(throttle_retry_transparent false true (some (0, 0)) w0ex 0 0 [] [] 3 0 1 [] [] rfl rfl).2.1,
   (throttle_retry_transparent false true (some (0, 0)) w0ex 0 0 [] [] 3 0 1 [] [] rfl rfl).2.2.1⟩

/-- C8 evidence: the missing-artifact check of `upload_activity` runs before
the dry-run guard, so a dry run mutates a record whose TCX file is missing
(persisting `'upload_failed_file_not_found'`), while any record whose file
exists is indeed left untouched with no remote interaction. This contradicts
the run's own dry-run summary, which reports "no status changes in
dry-run". -/
theorem dry_run_missing_file_mutates :
    upload_activity true false none w0ex [] =
      some ({ w0ex with strava_status := .upload_failed_file_not_found }, false)
    ∧ ({ w0ex with strava_status := .upload_failed_file_not_found } : Workout).strava_status =
        .upload_failed_file_not_found
    ∧ w0ex.strava_status = .pending_upload
    ∧ (∀ (metrics : Option (ℚ × ℚ)) (w : Workout) (script : List RemoteEvent),
        upload_activity true true metrics w script = some (w, false)) :=
  ⟨rfl, rfl, rfl, fun _ _ _ => rfl⟩
